import Mathlib

/-!
Shallow embedding of `src/src/lib/backgroundContext.tsx`: a process-wide
cached background-image URL module.  Storage (localStorage under one key),
the probe (image preload with timeout), the resolver (`initBackground`),
the refresh path and the provider's re-entry guard are modelled as pure
state-passing functions; asynchronous probe outcomes are supplied by an
oracle `probeOk : String → Bool` (the boolean that `preloadImage` resolves
to for each URL), and the event timing inside one probe by `LoadOutcome`.
-/

namespace Background

/-- `BG_CACHE_KEY = 'app_background_cache'` from the source. -/
def BG_CACHE_KEY : String := "app_background_cache"

/-- `BG_EXPIRE_TIME = 24 * 60 * 60 * 1000` (24h in milliseconds). -/
def BG_EXPIRE_TIME : Int := 24 * 60 * 60 * 1000

/-- `BG_LOAD_TIMEOUT = 10000` (10s load timeout, milliseconds). -/
def BG_LOAD_TIMEOUT : Nat := 10000

/-- The `timestamp` field of a parsed cache entry.  `.num t` is a JSON
number; `.malformed` is a missing or non-numeric field: in JavaScript
`now - undefined` (or `now - "abc"`) is `NaN`, and `NaN > x` is `false`,
so the expiry branch is not taken. -/
inductive TsField
  | num (t : Int)
  | malformed
  deriving DecidableEq, Repr

/-- What the storage key holds once `localStorage.getItem` returned a
string: either a string `JSON.parse` throws on (caught, treated as
absent), or a parsed record `{url, timestamp}`. -/
inductive Stored
  | unparseable
  | record (url : String) (timestamp : TsField)
  deriving DecidableEq, Repr

/-- The browser environment seen by the cache functions: whether `window`
exists, the storage slot under `BG_CACHE_KEY`, and whether
`localStorage.setItem` throws (caught and logged in the source: write is
best-effort). -/
structure Env where
  hasWindow : Bool
  storage : Option Stored
  writeFails : Bool
  deriving DecidableEq, Repr

/-- The module-level singleton: `globalBackgroundUrl` (`null` initially)
and `globalIsLoaded`. -/
structure GlobalState where
  globalBackgroundUrl : Option String
  globalIsLoaded : Bool
  deriving DecidableEq, Repr

/-- JavaScript truthiness of a nullable string: `null` and `''` are falsy. -/
def truthy : Option String → Bool
  | some s => s ≠ ""
  | none => false

/-- `getCachedBackground`: returns `null` without `window`, on a missing
entry, on a parse failure, or on expiry — deleting the entry in the
expiry case; otherwise returns `data.url`.  A `.malformed` timestamp
makes the expiry comparison `NaN > BG_EXPIRE_TIME`, which is false. -/
def getCachedBackground (now : Int) (env : Env) : Option String × Env :=
  if !env.hasWindow then (none, env)
  else
    match env.storage with
    | none => (none, env)
    | some .unparseable => (none, env)
    | some (.record url ts) =>
      match ts with
      | .num t =>
        if now - t > BG_EXPIRE_TIME then (none, { env with storage := none })
        else (some url, env)
      | .malformed => (some url, env)

/-- `setCachedBackground`: no-op without `window`; stores
`{url, timestamp: Date.now()}`; a storage exception is caught, leaving
the slot unchanged. -/
def setCachedBackground (now : Int) (url : String) (env : Env) : Env :=
  if !env.hasWindow then env
  else if env.writeFails then env
  else { env with storage := some (.record url (.num now)) }

/-- `fetchNewBackground`: the fallback candidate URL, parameterized by the
current epoch-millis to defeat caching. -/
def fetchNewBackground (now : Int) : String :=
  "https://loliapi.com/acg/?" ++ toString now

/-- The asynchronous events one `preloadImage` call can observe: the
image's `onload` or `onerror` firing at time `t` (milliseconds after the
call), or neither ever firing. -/
inductive LoadOutcome
  | success (t : Nat)
  | failure (t : Nat)
  | silent
  deriving DecidableEq, Repr

/-- The observable outcome of one `preloadImage` call: the boolean it
resolves with, whether the `setTimeout` fired first, and whether the
in-flight load was abandoned (`img.src = ''`). -/
structure ProbeRun where
  result : Bool
  timedOut : Bool
  srcCleared : Bool
  deriving DecidableEq, Repr

/-- `preloadImage`: resolves `true` if `onload` fires before the 10s
timeout, `false` if `onerror` fires first; if neither fires before
`BG_LOAD_TIMEOUT`, the timeout handler clears `img.src` and resolves
`false`.  The function is total: every outcome resolves to a boolean. -/
def preloadImage (o : LoadOutcome) : ProbeRun :=
  match o with
  | .success t =>
    if t < BG_LOAD_TIMEOUT then ⟨true, false, false⟩ else ⟨false, true, true⟩
  | .failure t =>
    if t < BG_LOAD_TIMEOUT then ⟨false, false, false⟩ else ⟨false, true, true⟩
  | .silent => ⟨false, true, true⟩

/-- Which URLs one resolution probed and whether `fetchNewBackground` was
called (the fallback network fetch). -/
structure ResolveTrace where
  probed : List String
  fetchedNew : Bool
  deriving DecidableEq, Repr

/-- The result of one `initBackground` run: the `finalUrl` it computed,
the storage environment, the singleton, and the trace. -/
structure ResolveResult where
  finalUrl : String
  env : Env
  g : GlobalState
  trace : ResolveTrace
  deriving DecidableEq, Repr

/-- `initBackground` (the resolver inside the provider's effect):
read the cache; if the cached value is truthy, probe it — adopt it on
success, `localStorage.removeItem` on failure; if no final URL yet,
generate a fallback candidate, probe it, and on success adopt it and
persist it via `setCachedBackground`; finally, if `finalUrl` is truthy,
write it into `globalBackgroundUrl`.  `tRead`, `tFetch`, `tWrite` are the
successive `Date.now()` readings at the read, the candidate generation
and the write. -/
def initBackground (probeOk : String → Bool) (tRead tFetch tWrite : Int)
    (env : Env) (g : GlobalState) : ResolveResult :=
  let rd := getCachedBackground tRead env
  let step1 : String × Env × List String :=
    match rd.1 with
    | some u =>
      if u = "" then ("", rd.2, [])
      else if probeOk u then (u, rd.2, [u])
      else ("", { rd.2 with storage := none }, [u])
    | none => ("", rd.2, [])
  let step2 : String × Env × Bool × List String :=
    if step1.1 = "" then
      let newUrl := fetchNewBackground tFetch
      if probeOk newUrl then
        (newUrl, setCachedBackground tWrite newUrl step1.2.1, true,
          step1.2.2 ++ [newUrl])
      else ("", step1.2.1, true, step1.2.2 ++ [newUrl])
    else (step1.1, step1.2.1, false, step1.2.2)
  let g1 := if step2.1 = "" then g
    else { g with globalBackgroundUrl := some step2.1 }
  ⟨step2.1, step2.2.1, g1, ⟨step2.2.2.2, step2.2.2.1⟩⟩

/-- `refreshBackground`: always generate and probe a fresh fallback
candidate; on success overwrite the singleton (URL replaced, loaded flag
reset to false) and persist the new record; on failure change nothing. -/
def refreshBackground (probeOk : String → Bool) (tFetch tWrite : Int)
    (env : Env) (g : GlobalState) : Env × GlobalState × ResolveTrace :=
  let newUrl := fetchNewBackground tFetch
  if probeOk newUrl then
    (setCachedBackground tWrite newUrl env,
      ⟨some newUrl, false⟩, ⟨[newUrl], true⟩)
  else (env, g, ⟨[newUrl], true⟩)

/-- The provider-level state the effect body manipulates: the singleton,
the `isInitializing` guard (a ref that is never reset), and a counter of
initialization sequences started, for stating single-flight. -/
structure ProcState where
  g : GlobalState
  isInitializing : Bool
  initsStarted : Nat
  deriving DecidableEq, Repr

/-- One activation of the provider's effect: if `globalBackgroundUrl` is
truthy, reuse it and return; if the guard is set, return; otherwise set
the guard and start an initialization sequence. -/
def activateProvider (s : ProcState) : ProcState :=
  if truthy s.g.globalBackgroundUrl then s
  else if s.isInitializing then s
  else { s with isInitializing := true, initsStarted := s.initsStarted + 1 }

/-- The tail of an asynchronous initialization completing with
`finalUrl`: a truthy result is written into the singleton; an empty
result changes nothing — in particular the guard is never reset. -/
def completeInit (finalUrl : String) (s : ProcState) : ProcState :=
  if finalUrl = "" then s
  else { s with g := { s.g with globalBackgroundUrl := some finalUrl } }

/-- The events of the provider's single-threaded event loop that touch
the guard or the singleton. -/
inductive ProcEv
  | activate
  | complete (finalUrl : String)
  deriving DecidableEq, Repr

/-- One event-loop step. -/
def stepProc (s : ProcState) (e : ProcEv) : ProcState :=
  match e with
  | .activate => activateProvider s
  | .complete u => completeInit u s

/-- Run a sequence of event-loop steps. -/
def runProc (s : ProcState) (evs : List ProcEv) : ProcState :=
  evs.foldl stepProc s

/-- Process start: singleton `null`/false, guard unset, no sequence run. -/
def initialProc : ProcState := ⟨⟨none, false⟩, false, 0⟩

/-- The single-flight invariant of the provider's event loop: at most one
initialization sequence has started, and none before the guard is set. -/
def ProcInv (s : ProcState) : Prop :=
  s.initsStarted ≤ 1 ∧ (s.isInitializing = false → s.initsStarted = 0)

theorem stepProc_inv (s : ProcState) (e : ProcEv) (h : ProcInv s) :
    ProcInv (stepProc s e) := by
  rcases e with _ | u <;>
    simp only [stepProc, activateProvider, completeInit, ProcInv] at h ⊢ <;>
    split_ifs <;> simp_all

theorem runProc_inv (evs : List ProcEv) (s : ProcState) (h : ProcInv s) :
    ProcInv (runProc s evs) := by
  induction evs generalizing s with
  | nil => exact h
  | cons e t ih => exact ih (stepProc s e) (stepProc_inv s e h)

/-- C1: for a stored record `{url, timestamp}`, a read at `now` with
`now - timestamp > 24h` returns absent and deletes the entry (so a
subsequent read at any time also returns absent); a read with
`now - timestamp ≤ 24h` returns the record's url. -/
theorem read_expiry_semantics (env : Env) (u : String) (ts now now2 : Int)
    (hw : env.hasWindow = true)
    (hs : env.storage = some (.record u (.num ts))) :
    (now - ts > BG_EXPIRE_TIME →
      getCachedBackground now env = (none, { env with storage := none }) ∧
      (getCachedBackground now2 { env with storage := none }).1 = none) ∧
    (now - ts ≤ BG_EXPIRE_TIME →
      (getCachedBackground now env).1 = some u) := by
  constructor
  · intro h
    simp [getCachedBackground, hw, hs, h]
  · intro h
    have hexp : ¬(now - ts > BG_EXPIRE_TIME) := by omega
    simp [getCachedBackground, hw, hs, hexp]

theorem read_expiry_semantics_witness :
    getCachedBackground 86400001 ⟨true, some (.record "a" (.num 0)), false⟩ =
      (none, ⟨true, none, false⟩) ∧
    (getCachedBackground 5 ⟨true, none, false⟩).1 = none :=
  (read_expiry_semantics ⟨true, some (.record "a" (.num 0)), false⟩
    "a" 0 86400001 5 rfl rfl).1 (by decide)

/-- C2: for a cache record within TTL whose (nonempty) URL passes the
probe, the resolution returns that cached URL, leaves the storage
environment untouched (no re-write, no deletion), probes only the cached
URL and never calls `fetchNewBackground`. -/
theorem resolve_cached_hit_idempotent (probeOk : String → Bool)
    (tRead tFetch tWrite ts : Int) (env : Env) (g : GlobalState) (u : String)
    (hw : env.hasWindow = true)
    (hs : env.storage = some (.record u (.num ts)))
    (hfresh : tRead - ts ≤ BG_EXPIRE_TIME)
    (hne : u ≠ "")
    (hp : probeOk u = true) :
    initBackground probeOk tRead tFetch tWrite env g =
      ⟨u, env, { g with globalBackgroundUrl := some u }, ⟨[u], false⟩⟩ := by
  have hexp : ¬(tRead - ts > BG_EXPIRE_TIME) := by omega
  simp [initBackground, getCachedBackground, hw, hs, hexp, hne, hp]

theorem resolve_cached_hit_idempotent_witness :
    initBackground (fun u => u == "a") 0 1 2
        ⟨true, some (.record "a" (.num 0)), false⟩ ⟨none, false⟩ =
      ⟨"a", ⟨true, some (.record "a" (.num 0)), false⟩,
        ⟨some "a", false⟩, ⟨["a"], false⟩⟩ :=
  resolve_cached_hit_idempotent (fun u => u == "a") 0 1 2 0
    ⟨true, some (.record "a" (.num 0)), false⟩ ⟨none, false⟩ "a"
    rfl rfl (by decide) (by decide) rfl

/-- C3: for a cache record within TTL whose (nonempty) URL fails the
probe, the resolution deletes that record and proceeds to generate and
probe a fallback candidate: `fetchNewBackground` is called, both URLs are
probed in order, and the final storage holds either nothing or the
freshly written fallback record — never the stale one. -/
theorem resolve_cached_probe_fail_deletes (probeOk : String → Bool)
    (tRead tFetch tWrite ts : Int) (env : Env) (g : GlobalState) (u : String)
    (hw : env.hasWindow = true)
    (hs : env.storage = some (.record u (.num ts)))
    (hfresh : tRead - ts ≤ BG_EXPIRE_TIME)
    (hne : u ≠ "")
    (hp : probeOk u = false) :
    (initBackground probeOk tRead tFetch tWrite env g).trace.fetchedNew = true ∧
    (initBackground probeOk tRead tFetch tWrite env g).trace.probed =
      [u, fetchNewBackground tFetch] ∧
    (initBackground probeOk tRead tFetch tWrite env g).env.storage =
      (if probeOk (fetchNewBackground tFetch) && !env.writeFails then
        some (.record (fetchNewBackground tFetch) (.num tWrite))
      else none) := by
  have hexp : ¬(tRead - ts > BG_EXPIRE_TIME) := by omega
  rcases hb : probeOk (fetchNewBackground tFetch) <;>
    rcases hwf : env.writeFails <;>
    simp [initBackground, getCachedBackground, setCachedBackground,
      hw, hs, hexp, hne, hp, hb, hwf]

theorem resolve_cached_probe_fail_deletes_witness :
    (initBackground (fun _ => false) 0 1 2
        ⟨true, some (.record "a" (.num 0)), false⟩ ⟨none, false⟩).trace.fetchedNew
      = true ∧
    (initBackground (fun _ => false) 0 1 2
        ⟨true, some (.record "a" (.num 0)), false⟩ ⟨none, false⟩).trace.probed =
      ["a", fetchNewBackground 1] ∧
    (initBackground (fun _ => false) 0 1 2
        ⟨true, some (.record "a" (.num 0)), false⟩ ⟨none, false⟩).env.storage =
      (if (fun (_ : String) => false) (fetchNewBackground 1) && !false then
        some (.record (fetchNewBackground 1) (.num 2))
      else none) :=
  resolve_cached_probe_fail_deletes (fun _ => false) 0 1 2 0
    ⟨true, some (.record "a" (.num 0)), false⟩ ⟨none, false⟩ "a"
    rfl rfl (by decide) (by decide) rfl

/-- C4: when the probe of whatever the cache yields fails and the probe
of the fallback candidate fails, the resolution returns the empty string
and leaves the whole singleton (`globalBackgroundUrl` and
`globalIsLoaded`) exactly as it was. -/
theorem resolve_total_failure_preserves_singleton (probeOk : String → Bool)
    (tRead tFetch tWrite : Int) (env : Env) (g : GlobalState)
    (hc : ∀ u, (getCachedBackground tRead env).1 = some u → probeOk u = false)
    (hf : probeOk (fetchNewBackground tFetch) = false) :
    (initBackground probeOk tRead tFetch tWrite env g).finalUrl = "" ∧
    (initBackground probeOk tRead tFetch tWrite env g).g = g := by
  unfold initBackground
  rcases h : (getCachedBackground tRead env).1 with _ | u
  · simp [h, hf]
  · have hpu := hc u h
    by_cases hu : u = "" <;> simp [h, hu, hpu, hf]

theorem resolve_total_failure_preserves_singleton_witness :
    (initBackground (fun _ => false) 0 1 2
        ⟨true, some (.record "a" (.num 0)), false⟩ ⟨some "old", true⟩).finalUrl
      = "" ∧
    (initBackground (fun _ => false) 0 1 2
        ⟨true, some (.record "a" (.num 0)), false⟩ ⟨some "old", true⟩).g =
      ⟨some "old", true⟩ :=
  resolve_total_failure_preserves_singleton (fun _ => false) 0 1 2
    ⟨true, some (.record "a" (.num 0)), false⟩ ⟨some "old", true⟩
    (fun _ _ => rfl) rfl

/-- C5: `refreshBackground` always generates and probes a fresh fallback
candidate, whatever the cache holds; on probe success it replaces the
singleton URL, resets the loaded flag to false and overwrites the cache
with the new URL and the fresh timestamp; on probe failure the storage
environment and the singleton are unchanged. -/
theorem refresh_always_fetches_fresh (probeOk : String → Bool)
    (tFetch tWrite : Int) (env : Env) (g : GlobalState)
    (hw : env.hasWindow = true) (hwf : env.writeFails = false) :
    (refreshBackground probeOk tFetch tWrite env g).2.2 =
      ⟨[fetchNewBackground tFetch], true⟩ ∧
    (probeOk (fetchNewBackground tFetch) = true →
      (refreshBackground probeOk tFetch tWrite env g).2.1 =
        ⟨some (fetchNewBackground tFetch), false⟩ ∧
      (refreshBackground probeOk tFetch tWrite env g).1.storage =
        some (.record (fetchNewBackground tFetch) (.num tWrite))) ∧
    (probeOk (fetchNewBackground tFetch) = false →
      (refreshBackground probeOk tFetch tWrite env g).1 = env ∧
      (refreshBackground probeOk tFetch tWrite env g).2.1 = g) := by
  rcases hp : probeOk (fetchNewBackground tFetch) <;>
    simp [refreshBackground, setCachedBackground, hw, hwf, hp]

theorem refresh_always_fetches_fresh_witness :
    (refreshBackground (fun _ => true) 7 8
        ⟨true, some (.record "a" (.num 0)), false⟩ ⟨some "old", true⟩).2.2 =
      ⟨[fetchNewBackground 7], true⟩ ∧
    ((fun (_ : String) => true) (fetchNewBackground 7) = true →
      (refreshBackground (fun _ => true) 7 8
          ⟨true, some (.record "a" (.num 0)), false⟩ ⟨some "old", true⟩).2.1 =
        ⟨some (fetchNewBackground 7), false⟩ ∧
      (refreshBackground (fun _ => true) 7 8
          ⟨true, some (.record "a" (.num 0)), false⟩
          ⟨some "old", true⟩).1.storage =
        some (.record (fetchNewBackground 7) (.num 8))) ∧
    ((fun (_ : String) => true) (fetchNewBackground 7) = false →
      (refreshBackground (fun _ => true) 7 8
          ⟨true, some (.record "a" (.num 0)), false⟩ ⟨some "old", true⟩).1 =
        ⟨true, some (.record "a" (.num 0)), false⟩ ∧
      (refreshBackground (fun _ => true) 7 8
          ⟨true, some (.record "a" (.num 0)), false⟩ ⟨some "old", true⟩).2.1 =
        ⟨some "old", true⟩) :=
  refresh_always_fetches_fresh (fun _ => true) 7 8
    ⟨true, some (.record "a" (.num 0)), false⟩ ⟨some "old", true⟩ rfl rfl

/-- C6: `preloadImage` is a total function into a boolean outcome (it
never rejects): it resolves `true` exactly when the load succeeds before
the 10s timeout; the timeout fires exactly when no load event arrives
before it, and then the result is `false` and the in-flight load is
abandoned by clearing the image source; without a timeout the source is
never cleared. -/
theorem preload_resolution_characterization (o : LoadOutcome) :
    ((preloadImage o).result = true ↔
      ∃ t, o = .success t ∧ t < BG_LOAD_TIMEOUT) ∧
    ((preloadImage o).timedOut = true ↔
      ∀ t, o = .success t ∨ o = .failure t → BG_LOAD_TIMEOUT ≤ t) ∧
    ((preloadImage o).timedOut = true →
      (preloadImage o).result = false ∧ (preloadImage o).srcCleared = true) ∧
    ((preloadImage o).timedOut = false →
      (preloadImage o).srcCleared = false) := by
  rcases o with t | t | _ <;> simp [preloadImage] <;>
    split_ifs with h <;> simp_all

/-- C7: from process start, across every interleaving of provider
activations and initialization completions, at most one initialization
sequence ever starts — so at most one fallback fetch is ever issued by
initialization, however many consumers activate concurrently. -/
theorem init_single_flight (evs : List ProcEv) :
    (runProc initialProc evs).initsStarted ≤ 1 :=
  (runProc_inv evs initialProc (by simp [ProcInv, initialProc])).1

/-- C8: once the guard is set and the singleton URL is still falsy (the
state after a failed initialization), any further activations change
nothing: the state is fixed, the URL stays falsy, and no new
initialization sequence ever starts. -/
theorem failed_init_guard_permanent (s : ProcState) (evs : List ProcEv)
    (hguard : s.isInitializing = true)
    (hurl : truthy s.g.globalBackgroundUrl = false)
    (hall : ∀ e ∈ evs, e = ProcEv.activate) :
    runProc s evs = s ∧
    truthy (runProc s evs).g.globalBackgroundUrl = false ∧
    (runProc s evs).initsStarted = s.initsStarted := by
  have key : ∀ l, (∀ e ∈ l, e = ProcEv.activate) → runProc s l = s := by
    intro l
    induction l with
    | nil => intro _; rfl
    | cons e t ih =>
      intro h
      have he : e = ProcEv.activate := h e (by simp)
      have hstep : stepProc s e = s := by
        subst he
        simp [stepProc, activateProvider, hguard]
      show runProc (stepProc s e) t = s
      rw [hstep]
      exact ih (fun x hx => h x (by simp [hx]))
  have k := key evs hall
  exact ⟨k, by rw [k]; exact hurl, by rw [k]⟩

theorem failed_init_guard_permanent_witness :
    runProc ⟨⟨none, false⟩, true, 1⟩ [ProcEv.activate, ProcEv.activate] =
      ⟨⟨none, false⟩, true, 1⟩ ∧
    truthy (runProc ⟨⟨none, false⟩, true, 1⟩
      [ProcEv.activate, ProcEv.activate]).g.globalBackgroundUrl = false ∧
    (runProc ⟨⟨none, false⟩, true, 1⟩
      [ProcEv.activate, ProcEv.activate]).initsStarted = 1 :=
  failed_init_guard_permanent ⟨⟨none, false⟩, true, 1⟩
    [ProcEv.activate, ProcEv.activate] rfl rfl (by decide)

/-- C9: a stored value that parses as JSON but whose `timestamp` field is
missing or not a number is not treated as absent: the read returns the
record's url, because the JavaScript expiry comparison against `NaN` is
false — and the entry is not deleted. -/
theorem malformed_timestamp_read_returns_url (now : Int) (u : String) (wf : Bool) :
    getCachedBackground now ⟨true, some (.record u .malformed), wf⟩ =
      (some u, ⟨true, some (.record u .malformed), wf⟩) := rfl

/-- C10: round-trip — if a write of `url` succeeds at time `tW` (browser
storage available, no storage exception), a read at any `now` with
`now - tW ≤ 24h` and no intervening write or delete returns that url. -/
theorem cache_write_read_roundtrip (env : Env) (url : String) (tW now : Int)
    (hw : env.hasWindow = true)
    (hwf : env.writeFails = false)
    (hfresh : now - tW ≤ BG_EXPIRE_TIME) :
    (getCachedBackground now (setCachedBackground tW url env)).1 = some url := by
  have hexp : ¬(now - tW > BG_EXPIRE_TIME) := by omega
  simp [setCachedBackground, getCachedBackground, hw, hwf, hexp]

theorem cache_write_read_roundtrip_witness :
    (getCachedBackground 100 (setCachedBackground 0 "a"
      ⟨true, none, false⟩)).1 = some "a" :=
  cache_write_read_roundtrip ⟨true, none, false⟩ "a" 0 100 rfl rfl (by decide)

end Background
